import Mathlib

/-!
Verification of the order-notification dispatch pipeline from
`src/Examenes/Examen02/Code/ejercicio1_tienda_online.py`.

The Python program is embedded shallowly:

* Python dicts that may lack keys become structures of `Option` fields,
  where `none` models an absent key (so that subscripting raises `KeyError`
  and `.get` returns `None`).
* Exceptions become `Except PyErr`; only `ValueError` and `KeyError` are
  ever raised by the embedded code.
* `print` output is collected as a `List String` trace (each element one
  `print` call's argument).
* `datetime.now().isoformat()` is modelled by the opaque constant string
  `nowIso`: the pipeline only stores timestamps, never inspects them.
* `float` totals are modelled as `Rat`; the pipeline only compares a total
  with `0` and interpolates it into messages, so no floating-point
  behaviour is observable.
-/

namespace Tienda

/-- Python exception values raised by the pipeline: `ValueError(msg)`
from the factory, and `KeyError(key)` from a dict subscript. -/
inductive PyErr where
  | valueError (msg : String)
  | keyError (key : String)
deriving DecidableEq, Repr

/-- `str(e)` for the two exception kinds: a `ValueError` renders its
message, a `KeyError` renders the quoted key. -/
def errStr : PyErr → String
  | .valueError m => m
  | .keyError k => "\x27" ++ k ++ "\x27"

/-- Whether the exception is a `ValueError` (the only class caught by
`process_order`'s `except ValueError` clause). -/
def isValueError : PyErr → Bool
  | .valueError _ => true
  | .keyError _ => false

/-- A customer dict. `none` models an absent key: `customer['k']` raises
`KeyError` and `customer.get('k')` yields `None`. -/
structure Customer where
  name : Option String
  email : Option String
  phone : Option String
  device_id : Option String
deriving DecidableEq, Repr

/-- The customer dict `{}` used as default by `CustomerValidator`. -/
def emptyCustomer : Customer := ⟨none, none, none, none⟩

/-- An order dict as passed to `process_order`; `none` models an absent
key. The optional `items` list is never read by the pipeline and is
omitted. -/
structure OrderData where
  order_id : Option String
  customer : Option Customer
  total : Option Rat
deriving DecidableEq, Repr

/-- Python truthiness of a string-or-`None` value: `None` and the empty
string are falsy. -/
def truthy : Option String → Bool
  | none => false
  | some s => s ≠ ""

/-- Python `str` of an optional string, as interpolated by f-strings:
`None` renders as the string `None`. -/
def optStr : Option String → String
  | none => "None"
  | some s => s

/-- Stand-in for `datetime.now().isoformat()` (opaque: only stored). -/
def nowIso : String := "<now>"

/-- A notification-result dict. `simple` is the `{'type', 'to',
'message', 'timestamp'}` dict of the primitive notifiers, `group` the
`{'type': 'composite', 'group', 'results', 'timestamp'}` dict of
`CompositeNotifier.send`, and `emptyDict` the bare `{}` returned by
`RetryDecorator.send` when its loop runs zero times. -/
inductive SendResult where
  | simple (ty toAddr message timestamp : String)
  | group (name : String) (results : List SendResult) (timestamp : String)
  | emptyDict

/-- `notification_data.get('type')`. -/
def SendResult.typeGet : SendResult → Option String
  | .simple ty _ _ _ => some ty
  | .group _ _ _ => some "composite"
  | .emptyDict => none

/-- `notification_data.get('to')`. -/
def SendResult.toGet : SendResult → Option String
  | .simple _ toAddr _ _ => some toAddr
  | .group _ _ _ => none
  | .emptyDict => none

/-- The closed world of `INotifier` implementations in the source file:
the three primitive notifiers, the two decorators, and the composite. -/
inductive Notifier where
  | email
  | sms
  | push
  | retryDec (inner : Notifier) (max_retries : Nat)
  | loggingDec (inner : Notifier)
  | composite (name : String) (members : List Notifier)

/-- `get_notification_type`: primitives name their channel, decorators
delegate to the wrapped notifier, the composite prefixes its group
name. -/
def get_notification_type : Notifier → String
  | .email => "email"
  | .sms => "sms"
  | .push => "push"
  | .retryDec inner _ => get_notification_type inner
  | .loggingDec inner => get_notification_type inner
  | .composite name _ => "composite_" ++ name

/-- `RetryDecorator.send`'s `for attempt in range(max_retries)` loop.
`call attempt` is the outcome of `self._notifier.send(...)` on that
attempt (result-or-exception, and its print trace); `remaining` counts
the attempts still allowed, starting at `max_retries`. When the loop
exhausts without returning (only possible when `max_retries = 0`) the
method returns the bare `{}`. -/
def retryLoop (call : Nat → Except PyErr SendResult × List String)
    (max_retries : Nat) : Nat → Nat → Except PyErr SendResult × List String
  | 0, _ => (Except.ok SendResult.emptyDict, [])
  | remaining + 1, attempt =>
    let intro := "   🔄 Intento " ++ toString (attempt + 1) ++ "/" ++ toString max_retries
    let o := call attempt
    match o.1 with
    | Except.ok r => (Except.ok r, intro :: o.2)
    | Except.error e =>
      if attempt == max_retries - 1 then
        (Except.error e, intro :: o.2)
      else
        let rest := retryLoop call max_retries remaining (attempt + 1)
        (rest.1, (intro :: o.2) ++
          ("   ⚠️ Error intento " ++ toString (attempt + 1) ++ ": " ++ errStr e) :: rest.2)

mutual

/-- `send(customer, order_id, total)` for each notifier, returning the
result-or-exception together with the trace of `print` calls it makes. -/
def send : Notifier → Customer → String → Rat → Except PyErr SendResult × List String
  | Notifier.email, c, oid, t =>
    match c.name with
    | none => (Except.error (PyErr.keyError "name"), [])
    | some nm =>
      let message := "Estimado " ++ nm ++ ", su pedido #" ++ oid ++ " por $" ++
        toString t ++ " ha sido confirmado."
      match c.email with
      | none => (Except.error (PyErr.keyError "email"), [])
      | some em =>
        (Except.ok (SendResult.simple "email" em message nowIso),
         ["📧 EMAIL enviado a " ++ em ++ ": " ++ message ++ "\n"])
  | Notifier.sms, c, oid, t =>
    let message := "Pedido #" ++ oid ++ " confirmado. Total: $" ++ toString t ++ ". Gracias!"
    match c.phone with
    | none => (Except.error (PyErr.keyError "phone"), [])
    | some ph =>
      (Except.ok (SendResult.simple "sms" ph message nowIso),
       ["📱 SMS enviado a " ++ ph ++ ": " ++ message ++ "\n"])
  | Notifier.push, c, oid, t =>
    let message := "¡Pedido confirmado! #" ++ oid ++ " - $" ++ toString t
    match c.device_id with
    | none => (Except.error (PyErr.keyError "device_id"), [])
    | some dv =>
      (Except.ok (SendResult.simple "push" dv message nowIso),
       ["🔔 PUSH enviada a " ++ dv ++ ": " ++ message ++ "\n"])
  | Notifier.retryDec inner maxr, c, oid, t =>
    retryLoop (fun _ => send inner c oid t) maxr maxr 0
  | Notifier.loggingDec inner, c, oid, t =>
    let start := "   📝 [LOG] Iniciando " ++ get_notification_type inner
    let o := send inner c oid t
    match o.1 with
    | Except.ok r => (Except.ok r, start :: o.2 ++ ["   📝 [LOG] Completado"])
    | Except.error e => (Except.error e, start :: o.2)
  | Notifier.composite name ms, c, oid, t =>
    let header := "📦 Grupo \x27" ++ name ++ "\x27:"
    let o := sendList ms c oid t
    match o.1 with
    | Except.ok rs => (Except.ok (SendResult.group name rs nowIso), header :: o.2)
    | Except.error e => (Except.error e, header :: o.2)

/-- `CompositeNotifier.send`'s member loop: sends through each member in
order, collecting results, and propagates the first exception. -/
def sendList : List Notifier → Customer → String → Rat → Except PyErr (List SendResult) × List String
  | [], _, _, _ => (Except.ok [], [])
  | m :: ms, c, oid, t =>
    let o := send m c oid t
    match o.1 with
    | Except.error e => (Except.error e, o.2)
    | Except.ok r =>
      let rest := sendList ms c oid t
      match rest.1 with
      | Except.error e => (Except.error e, o.2 ++ rest.2)
      | Except.ok rs => (Except.ok (r :: rs), o.2 ++ rest.2)

end

/-- `NotificationFactory._notifiers`: an association list in insertion
order (`__init__` pre-registers the three primitive notifiers). -/
abbrev NotificationFactory := List (String × Notifier)

/-- The dict built by `NotificationFactory.__init__`. -/
def defaultNotifiers : NotificationFactory :=
  [("email", Notifier.email), ("sms", Notifier.sms), ("push", Notifier.push)]

/-- `NotificationFactory.get_notifier`: `.get` on the dict, raising
`ValueError` when the lookup yields `None`. (Registered notifier objects
are always truthy, so `if not notifier` fires exactly on `None`.) -/
def get_notifier (fac : NotificationFactory) (notification_type : String) : Except PyErr Notifier :=
  match List.lookup notification_type fac with
  | some notifier => Except.ok notifier
  | none => Except.error (PyErr.valueError ("Tipo no soportado: " ++ notification_type))

/-- `NotificationFactory.register_notifier`: dict assignment (overwrite
in place, or append a new binding). -/
def register_notifier (fac : NotificationFactory) (notification_type : String)
    (notifier : Notifier) : NotificationFactory :=
  if (List.lookup notification_type fac).isSome then
    fac.map (fun p => if p.1 = notification_type then (notification_type, notifier) else p)
  else
    fac ++ [(notification_type, notifier)]

/-- `NotificationLogger.notifications_sent`. -/
abbrev NotificationLogger := List SendResult

/-- `NotificationLogger.log`: `self.notifications_sent.append(...)`. -/
def NotificationLogger.log (lg : NotificationLogger) (notification_data : SendResult) :
    NotificationLogger :=
  lg ++ [notification_data]

/-- `NotificationLogger.get_history`: returns the list itself. -/
def get_history (lg : NotificationLogger) : List SendResult := lg

/-- An entry of `AuditObserver.audit_log`. -/
structure AuditEntry where
  timestamp : String
  notification_type : Option String
  recipient : Option String
  status : String

/-- The two `INotificationObserver` implementations with their state:
`AnalyticsObserver.notification_count` (a dict, kept in insertion
order) and `AuditObserver.audit_log`. -/
inductive Observer where
  | analytics (notification_count : List (String × Nat))
  | audit (audit_log : List AuditEntry)

/-- Dict assignment `counts[k] = v`: overwrite in place or append. -/
def setCount (m : List (String × Nat)) (k : String) (v : Nat) : List (String × Nat) :=
  if (List.lookup k m).isSome then m.map (fun p => if p.1 = k then (k, v) else p)
  else m ++ [(k, v)]

/-- `update(notification_data)` for each observer: the new observer
state and the printed line. -/
def update : Observer → SendResult → Observer × List String
  | Observer.analytics counts, d =>
    let notif_type := d.typeGet.getD "unknown"
    let newCount := (List.lookup notif_type counts).getD 0 + 1
    (Observer.analytics (setCount counts notif_type newCount),
     ["   📊 [Analytics] " ++ notif_type ++ " registrado. Total: " ++ toString newCount])
  | Observer.audit entries, d =>
    (Observer.audit (entries ++ [⟨nowIso, d.typeGet, d.toGet, "sent"⟩]),
     ["   🔍 [Audit] " ++ optStr d.typeGet ++ " → " ++ optStr d.toGet])

/-- The three concrete `IValidator` subclasses. -/
inductive Validator where
  | orderId
  | customer
  | total

/-- The check each validator performs itself (before `_call_next`), with
the line it prints: `OrderIdValidator` requires a truthy
`order_data.get('order_id')`, `CustomerValidator` a truthy name and
email on `order_data.get('customer', {})`, and `TotalValidator` a
positive `order_data.get('total', 0)`. -/
def checkStep : Validator → OrderData → Bool × String
  | Validator.orderId, od =>
    if truthy od.order_id then (true, "   ✅ Order ID válido")
    else (false, "   ❌ Order ID faltante")
  | Validator.customer, od =>
    let customer := od.customer.getD emptyCustomer
    if truthy customer.name && truthy customer.email then (true, "   ✅ Cliente válido")
    else (false, "   ❌ Cliente incompleto")
  | Validator.total, od =>
    if od.total.getD 0 ≤ 0 then (false, "   ❌ Total inválido")
    else (true, "   ✅ Total válido")

/-- Running a linked validator chain (`validate` plus `_call_next`): a
failing check returns `False` at once; a passing check delegates to the
next link, and a missing next link counts as success. The trace lists
the lines printed, in order. -/
def runChain : List Validator → OrderData → Bool × List String
  | [], _ => (true, [])
  | v :: vs, od =>
    let c := checkStep v od
    if c.1 then
      let rest := runChain vs od
      (rest.1, c.2 :: rest.2)
    else
      (false, [c.2])

/-- `OrderNotificationSystem._build_validator_chain`: order-id, then
customer, then total. -/
def build_validator_chain : List Validator :=
  [Validator.orderId, Validator.customer, Validator.total]

/-- `self._validator_chain.validate(order_data)`. -/
def validate (od : OrderData) : Bool × List String :=
  runChain build_validator_chain od

/-- The mutable state of an `OrderNotificationSystem`. -/
structure OrderNotificationSystem where
  factory : NotificationFactory
  logger : NotificationLogger
  observers : List Observer

/-- The system built by `OrderNotificationSystem()` with default factory
and logger and no observers attached. -/
def defaultSystem : OrderNotificationSystem := ⟨defaultNotifiers, [], []⟩

/-- `OrderNotificationSystem._notify_observers`: update every attached
observer, in attachment order, collecting their prints. -/
def notify_observers : List Observer → SendResult → List Observer × List String
  | [], _ => ([], [])
  | o :: os, d =>
    let u := update o d
    let rest := notify_observers os d
    (u.1 :: rest.1, u.2 ++ rest.2)

/-- The `for notif_type in notification_types` loop of `process_order`:
per channel, resolve the handler and send; on success log the result and
notify observers; a `ValueError` (from resolution or from `send`) is
caught, printed and the loop continues; any other exception propagates,
keeping the state mutated so far. -/
def processLoop (c : Customer) (oid : String) (t : Rat) :
    OrderNotificationSystem → List String →
    Except PyErr Unit × OrderNotificationSystem × List String
  | sys, [] => (Except.ok (), sys, [])
  | sys, k :: ks =>
    match get_notifier sys.factory k with
    | Except.error e =>
      let rest := processLoop c oid t sys ks
      (rest.1, rest.2.1, ("⚠️ Error: " ++ errStr e ++ "\n") :: rest.2.2)
    | Except.ok notifier =>
      let o := send notifier c oid t
      match o.1 with
      | Except.error e =>
        if isValueError e then
          let rest := processLoop c oid t sys ks
          (rest.1, rest.2.1, o.2 ++ ("⚠️ Error: " ++ errStr e ++ "\n") :: rest.2.2)
        else
          (Except.error e, sys, o.2)
      | Except.ok data =>
        let nres := notify_observers sys.observers data
        let sys' : OrderNotificationSystem :=
          { sys with logger := NotificationLogger.log sys.logger data, observers := nres.1 }
        let rest := processLoop c oid t sys' ks
        (rest.1, rest.2.1, o.2 ++ nres.2 ++ rest.2.2)

/-- The line `'='*50`. -/
def sep50 : String := String.mk (List.replicate 50 '=')

/-- `OrderNotificationSystem.process_order`: subscript the three order
fields (each raising `KeyError` when absent), print the header (which
subscripts `customer['name']`), validate, and on success run the
dispatch loop. The returned triple is (outcome, final system state,
print trace). -/
def process_order (sys : OrderNotificationSystem) (order_data : OrderData)
    (notification_types : List String) :
    Except PyErr Unit × OrderNotificationSystem × List String :=
  match order_data.order_id with
  | none => (Except.error (PyErr.keyError "order_id"), sys, [])
  | some oid =>
    match order_data.customer with
    | none => (Except.error (PyErr.keyError "customer"), sys, [])
    | some c =>
      match order_data.total with
      | none => (Except.error (PyErr.keyError "total"), sys, [])
      | some t =>
        let l1 := "\n" ++ sep50
        let l2 := "Procesando pedido #" ++ oid
        match c.name with
        | none => (Except.error (PyErr.keyError "name"), sys, [l1, l2])
        | some nm =>
          let hdrs := [l1, l2, "Cliente: " ++ nm, "Total: $" ++ toString t, sep50 ++ "\n",
                       "🔍 Validando pedido..."]
          let v := validate order_data
          if v.1 then
            let r := processLoop c oid t sys notification_types
            (r.1, r.2.1, hdrs ++ v.2 ++ r.2.2)
          else
            (Except.ok (), sys, hdrs ++ v.2 ++ ["❌ Pedido inválido\n"])

/-- `OrderNotificationSystem.get_notification_history`. -/
def get_notification_history (sys : OrderNotificationSystem) : List SendResult :=
  get_history sys.logger

/-- Spec-side description of validation (for comparison with the chain
implementation): run the three checks in the fixed order
identifier-present, customer-complete, total-positive, stop at the first
failing check and report only that check's diagnostic. -/
def validateSpec (od : OrderData) : Bool × List String :=
  if truthy od.order_id = false then
    (false, ["   ❌ Order ID faltante"])
  else if (truthy (od.customer.getD emptyCustomer).name &&
      truthy (od.customer.getD emptyCustomer).email) = false then
    (false, ["   ✅ Order ID válido", "   ❌ Cliente incompleto"])
  else if od.total.getD 0 ≤ 0 then
    (false, ["   ✅ Order ID válido", "   ✅ Cliente válido", "   ❌ Total inválido"])
  else
    (true, ["   ✅ Order ID válido", "   ✅ Cliente válido", "   ✅ Total válido"])

/-- The sequence of notification results the dispatch loop produces for
a request list: for each requested kind, in request order, the result of
the registered handler's send (skipping unregistered kinds). -/
def histDelta (fac : NotificationFactory) (c : Customer) (oid : String) (t : Rat)
    (kinds : List String) : List SendResult :=
  kinds.filterMap (fun k => (List.lookup k fac).bind (fun n => (send n c oid t).1.toOption))

/-- A customer dict carrying only name and email (no 'phone' key), as a
caller may pass to `process_order`. -/
def anaNoPhone : Customer := ⟨some "Ana", some "a@x.com", none, none⟩

/-- An order that passes the validator chain but whose customer dict has
no 'phone' key. -/
def odNoPhone : OrderData := ⟨some "O1", some anaNoPhone, some 10⟩

/-- The spec's rejection scenario: empty identifier, complete customer,
positive total. -/
def odEmptyId : OrderData := ⟨some "", some ⟨some "Pedro", some "pedro@email.com", none, none⟩, some 10⟩

/-- A customer dict carrying every delivery address. -/
def anaFull : Customer := ⟨some "Ana", some "a@x.com", some "+34-600", some "DEV-1"⟩

end Tienda


namespace Tienda

lemma processLoop_step_notfound (c : Customer) (oid : String) (t : Rat) (k : String)
    (ks : List String) (sys : OrderNotificationSystem)
    (h : List.lookup k sys.factory = none) :
    processLoop c oid t sys (k :: ks) =
      ((processLoop c oid t sys ks).1, (processLoop c oid t sys ks).2.1,
       ("⚠️ Error: " ++ ("Tipo no soportado: " ++ k) ++ "\n") :: (processLoop c oid t sys ks).2.2) := by
  simp [processLoop, get_notifier, h, errStr]

lemma processLoop_step_abort (c : Customer) (oid : String) (t : Rat) (k : String)
    (ks : List String) (sys : OrderNotificationSystem) (n : Notifier) (e : PyErr)
    (h1 : List.lookup k sys.factory = some n)
    (h2 : (send n c oid t).1 = Except.error e)
    (h3 : isValueError e = false) :
    processLoop c oid t sys (k :: ks) = (Except.error e, sys, (send n c oid t).2) := by
  simp [processLoop, get_notifier, h1, h2, h3]

lemma processLoop_step_ok (c : Customer) (oid : String) (t : Rat) (k : String)
    (ks : List String) (sys : OrderNotificationSystem) (n : Notifier) (data : SendResult)
    (h1 : List.lookup k sys.factory = some n)
    (h2 : (send n c oid t).1 = Except.ok data) :
    processLoop c oid t sys (k :: ks) =
      ((processLoop c oid t
          { sys with logger := NotificationLogger.log sys.logger data,
                     observers := (notify_observers sys.observers data).1 } ks).1,
       (processLoop c oid t
          { sys with logger := NotificationLogger.log sys.logger data,
                     observers := (notify_observers sys.observers data).1 } ks).2.1,
       (send n c oid t).2 ++ (notify_observers sys.observers data).2 ++
         (processLoop c oid t
            { sys with logger := NotificationLogger.log sys.logger data,
                       observers := (notify_observers sys.observers data).1 } ks).2.2) := by
  simp [processLoop, get_notifier, h1, h2]

lemma histDelta_nil (fac : NotificationFactory) (c : Customer) (oid : String) (t : Rat) :
    histDelta fac c oid t [] = [] := rfl

lemma histDelta_cons_none (fac : NotificationFactory) (c : Customer) (oid : String) (t : Rat)
    (k : String) (ks : List String) (h : List.lookup k fac = none) :
    histDelta fac c oid t (k :: ks) = histDelta fac c oid t ks := by
  simp [histDelta, h]

lemma histDelta_cons_some (fac : NotificationFactory) (c : Customer) (oid : String) (t : Rat)
    (k : String) (ks : List String) (n : Notifier) (data : SendResult)
    (h1 : List.lookup k fac = some n) (h2 : (send n c oid t).1 = Except.ok data) :
    histDelta fac c oid t (k :: ks) = data :: histDelta fac c oid t ks := by
  simp [histDelta, h1, h2, Except.toOption]

/-- Claim C4: `get_notifier` raises `ValueError` ("Tipo no soportado")
exactly when the requested kind has no registered handler, and returns
the registered handler otherwise. -/
theorem resolve_notfound_or_registered (fac : NotificationFactory) (kind : String) :
    (List.lookup kind fac = none →
      get_notifier fac kind =
        Except.error (PyErr.valueError ("Tipo no soportado: " ++ kind))) ∧
    (∀ n, List.lookup kind fac = some n → get_notifier fac kind = Except.ok n) := by
  constructor
  · intro h
    simp [get_notifier, h]
  · intro n h
    simp [get_notifier, h]

/-- Witness for C4 at the default factory: "fax" is unregistered and
fails; "email" is registered and resolves to the email notifier. -/
theorem resolve_notfound_or_registered_witness :
    get_notifier defaultNotifiers "fax" =
      Except.error (PyErr.valueError ("Tipo no soportado: " ++ "fax")) ∧
    get_notifier defaultNotifiers "email" = Except.ok Notifier.email :=
  ⟨(resolve_notfound_or_registered defaultNotifiers "fax").1 rfl,
   (resolve_notfound_or_registered defaultNotifiers "email").2 Notifier.email rfl⟩

/-- Claim C5: a requested kind with no registered handler is skipped:
its step only prints the caught `ValueError` and the loop continues on
the remaining kinds from the same state, so that channel contributes no
result and nothing is raised out of the dispatch. -/
theorem unregistered_channel_skipped (c : Customer) (oid : String) (t : Rat) (k : String)
    (ks : List String) (sys : OrderNotificationSystem)
    (h : List.lookup k sys.factory = none) :
    processLoop c oid t sys (k :: ks) =
      ((processLoop c oid t sys ks).1, (processLoop c oid t sys ks).2.1,
       ("⚠️ Error: " ++ ("Tipo no soportado: " ++ k) ++ "\n") :: (processLoop c oid t sys ks).2.2) := by
  simp [processLoop, get_notifier, h, errStr]

/-- Witness for C5: requesting unknown kind "fax" before "email" yields
the same outcome and final state as requesting "email" alone, plus the
error line. -/
theorem unregistered_channel_skipped_witness :
    List.lookup "fax" defaultSystem.factory = none ∧
    processLoop anaNoPhone "O1" 10 defaultSystem ["fax", "email"] =
      ((processLoop anaNoPhone "O1" 10 defaultSystem ["email"]).1,
       (processLoop anaNoPhone "O1" 10 defaultSystem ["email"]).2.1,
       ("⚠️ Error: " ++ ("Tipo no soportado: " ++ "fax") ++ "\n") ::
         (processLoop anaNoPhone "O1" 10 defaultSystem ["email"]).2.2) :=
  ⟨rfl,
   unregistered_channel_skipped anaNoPhone "O1" 10 "fax" ["email"] defaultSystem rfl⟩

lemma retryLoop_succ (call : Nat → Except PyErr SendResult × List String)
    (maxr rem att : Nat) :
    retryLoop call maxr (rem + 1) att =
      (let intro := "   🔄 Intento " ++ toString (att + 1) ++ "/" ++ toString maxr
       let o := call att
       match o.1 with
       | Except.ok r => (Except.ok r, intro :: o.2)
       | Except.error e =>
         if att == maxr - 1 then (Except.error e, intro :: o.2)
         else
           (let rest := retryLoop call maxr rem (att + 1)
            (rest.1, (intro :: o.2) ++
              ("   ⚠️ Error intento " ++ toString (att + 1) ++ ": " ++ errStr e) :: rest.2))) := rfl

/-- Claim C8: the retry loop of `RetryDecorator.send` (its `send` on a
decorated notifier is exactly `retryLoop` over the inner send), run over
an inner handler that fails on its first two attempts and succeeds on
the third, returns the successful result when `max_retries = 3` and
re-raises the second failure when `max_retries = 2`. -/
theorem retry_three_succeeds_two_raises
    (call : Nat → Except PyErr SendResult × List String)
    (e0 e1 : PyErr) (r : SendResult) (out0 out1 out2 : List String)
    (h0 : call 0 = (Except.error e0, out0))
    (h1 : call 1 = (Except.error e1, out1))
    (h2 : call 2 = (Except.ok r, out2)) :
    (retryLoop call 3 3 0).1 = Except.ok r ∧
    (retryLoop call 2 2 0).1 = Except.error e1 ∧
    (∀ (inner : Notifier) (c : Customer) (oid : String) (t : Rat) (maxr : Nat),
      send (Notifier.retryDec inner maxr) c oid t =
        retryLoop (fun _ => send inner c oid t) maxr maxr 0) := by
  refine ⟨?_, ?_, ?_⟩
  · rw [show retryLoop call 3 3 0 = retryLoop call 3 (2 + 1) 0 from rfl, retryLoop_succ, h0]
    simp only []
    rw [show retryLoop call 3 2 1 = retryLoop call 3 (1 + 1) 1 from rfl, retryLoop_succ, h1]
    simp only []
    rw [show retryLoop call 3 1 2 = retryLoop call 3 (0 + 1) 2 from rfl, retryLoop_succ, h2]
    simp
  · rw [show retryLoop call 2 2 0 = retryLoop call 2 (1 + 1) 0 from rfl, retryLoop_succ, h0]
    simp only []
    rw [show retryLoop call 2 1 1 = retryLoop call 2 (0 + 1) 1 from rfl, retryLoop_succ, h1]
    simp
  · intro inner c oid t maxr
    simp [send]

lemma processLoop_step_senderr_caught (c : Customer) (oid : String) (t : Rat) (k : String)
    (ks : List String) (sys : OrderNotificationSystem) (n : Notifier) (e : PyErr)
    (h1 : List.lookup k sys.factory = some n)
    (h2 : (send n c oid t).1 = Except.error e)
    (h3 : isValueError e = true) :
    processLoop c oid t sys (k :: ks) =
      ((processLoop c oid t sys ks).1, (processLoop c oid t sys ks).2.1,
       (send n c oid t).2 ++
         ("⚠️ Error: " ++ errStr e ++ "\n") :: (processLoop c oid t sys ks).2.2) := by
  simp [processLoop, get_notifier, h1, h2, h3]

/-- Claim C6: the validator chain built by `_build_validator_chain`
coincides with the spec-side fixed-order, first-failure description
`validateSpec`: checks run as identifier, customer, total; the first
failing check's diagnostic is the only failure reported and later checks
do not run. -/
theorem validator_chain_fixed_order_first_failure (od : OrderData) :
    validate od = validateSpec od := by
  simp only [validate, build_validator_chain, runChain, checkStep, validateSpec]
  by_cases h1 : truthy od.order_id
  · by_cases h2 : (truthy (od.customer.getD emptyCustomer).name &&
        truthy (od.customer.getD emptyCustomer).email) = true
    · by_cases h3 : od.total.getD 0 ≤ 0 <;> simp [h1, h2, h3, runChain]
    · simp [h1, h2, runChain]
  · simp [h1]

lemma sendList_all_ok (c : Customer) (oid : String) (t : Rat) :
    ∀ (ms : List Notifier), (∀ m ∈ ms, (send m c oid t).1.isOk = true) →
    sendList ms c oid t =
      (Except.ok (ms.filterMap (fun m => ((send m c oid t).1).toOption)),
       (ms.map (fun m => (send m c oid t).2)).flatten) := by
  intro ms
  induction ms with
  | nil => intro _; simp [sendList]
  | cons m ms ih =>
    intro h
    obtain ⟨r, hr⟩ : ∃ r, (send m c oid t).1 = Except.ok r := by
      have hm := h m (List.mem_cons_self m ms)
      cases hs : (send m c oid t).1 with
      | error e => rw [hs] at hm; simp [Except.isOk, Except.toBool] at hm
      | ok r => exact ⟨r, rfl⟩
    have ihh := ih (fun x hx => h x (List.mem_cons_of_mem m hx))
    simp [sendList, hr, ihh, Except.toOption]

/-- Counterexample to C7 as stated: on a customer dict with no 'phone'
key, a composite of [sms, email] propagates the sms send's `KeyError`
and its whole print trace is just the group header — the email member,
whose own send would print a line, is never invoked, and no aggregate is
returned. So "send invokes each member exactly once" does not hold for
every input. -/
theorem composite_member_not_invoked_counterexample :
    send (Notifier.composite "G" [Notifier.sms, Notifier.email]) anaNoPhone "O1" 10 =
      (Except.error (PyErr.keyError "phone"), ["📦 Grupo \x27G\x27:"]) ∧
    (send Notifier.email anaNoPhone "O1" 10).2 ≠ [] := by
  constructor
  · rfl
  · decide

/-- Claim C7 as amended: whenever every member send succeeds (the only
case in which the composite returns an aggregate), a composite
notifier's `send` invokes each member exactly once in the order the
members were added — its print trace is the group header followed by
each member's trace once, in that order — and the returned aggregate's
`results` are exactly the members' results in that same order. -/
theorem composite_send_aggregates_members (name : String) (ms : List Notifier) (c : Customer)
    (oid : String) (t : Rat)
    (h : ∀ m ∈ ms, (send m c oid t).1.isOk = true) :
    send (Notifier.composite name ms) c oid t =
      (Except.ok (SendResult.group name
          (ms.filterMap (fun m => ((send m c oid t).1).toOption)) nowIso),
       ("📦 Grupo \x27" ++ name ++ "\x27:") ::
         (ms.map (fun m => (send m c oid t).2)).flatten) := by
  simp [send, sendList_all_ok c oid t ms h]

/-- Witness for C7: the demo's Premium group of the three primitive
notifiers, sent to a customer carrying all addresses. -/
theorem composite_send_aggregates_members_witness :
    (∀ m ∈ [Notifier.email, Notifier.sms, Notifier.push],
      (send m anaFull "O1" 10).1.isOk = true) ∧
    send (Notifier.composite "Premium" [Notifier.email, Notifier.sms, Notifier.push])
        anaFull "O1" 10 =
      (Except.ok (SendResult.group "Premium"
          ([Notifier.email, Notifier.sms, Notifier.push].filterMap
            (fun m => ((send m anaFull "O1" 10).1).toOption)) nowIso),
       ("📦 Grupo \x27" ++ "Premium" ++ "\x27:") ::
         ([Notifier.email, Notifier.sms, Notifier.push].map
           (fun m => (send m anaFull "O1" 10).2)).flatten) := by
  have h : ∀ m ∈ [Notifier.email, Notifier.sms, Notifier.push],
      (send m anaFull "O1" 10).1.isOk = true := by
    intro m hm
    simp only [List.mem_cons, List.not_mem_nil, or_false] at hm
    rcases hm with rfl | rfl | rfl <;> rfl
  exact ⟨h, composite_send_aggregates_members "Premium"
    [Notifier.email, Notifier.sms, Notifier.push] anaFull "O1" 10 h⟩

lemma notify_observers_map (obs : List Observer) (d : SendResult) :
    notify_observers obs d =
      (obs.map (fun o => (update o d).1), (obs.map (fun o => (update o d).2)).flatten) := by
  induction obs with
  | nil => simp [notify_observers]
  | cons o os ih => simp [notify_observers, ih]

lemma processLoop_logger_additive (c : Customer) (oid : String) (t : Rat) :
    ∀ (ks : List String) (sys : OrderNotificationSystem),
    ∃ delta, (processLoop c oid t sys ks).2.1.logger = sys.logger ++ delta := by
  intro ks
  induction ks with
  | nil => intro sys; exact ⟨[], by simp [processLoop]⟩
  | cons k ks ih =>
    intro sys
    cases hlook : List.lookup k sys.factory with
    | none =>
      obtain ⟨d, hd⟩ := ih sys
      exact ⟨d, by rw [processLoop_step_notfound c oid t k ks sys hlook]; exact hd⟩
    | some n =>
      cases hs : (send n c oid t).1 with
      | error e =>
        cases hve : isValueError e with
        | false =>
          exact ⟨[], by rw [processLoop_step_abort c oid t k ks sys n e hlook hs hve]; simp⟩
        | true =>
          obtain ⟨d, hd⟩ := ih sys
          refine ⟨d, ?_⟩
          rw [processLoop_step_senderr_caught c oid t k ks sys n e hlook hs hve]
          exact hd
      | ok data =>
        obtain ⟨d, hd⟩ := ih
          { sys with logger := NotificationLogger.log sys.logger data,
                     observers := (notify_observers sys.observers data).1 }
        refine ⟨data :: d, ?_⟩
        rw [processLoop_step_ok c oid t k ks sys n data hlook hs]
        simpa [NotificationLogger.log] using hd

/-- Claim C9: the history log is purely additive (`log` appends, and
`get_history` returns the results in exact append order with no
deduplication or eviction); each successful per-channel send result is
appended to the log and forwarded to every attached observer in
attachment order before the loop continues; and across any dispatch the
log only ever grows by appending. -/
theorem history_log_additive_listener_order :
    (∀ (lg : NotificationLogger) (d : SendResult),
      get_history (NotificationLogger.log lg d) = get_history lg ++ [d]) ∧
    (∀ (obs : List Observer) (d : SendResult),
      notify_observers obs d =
        (obs.map (fun o => (update o d).1), (obs.map (fun o => (update o d).2)).flatten)) ∧
    (∀ (c : Customer) (oid : String) (t : Rat) (k : String) (ks : List String)
        (sys : OrderNotificationSystem) (n : Notifier) (data : SendResult),
      List.lookup k sys.factory = some n → (send n c oid t).1 = Except.ok data →
      (processLoop c oid t sys (k :: ks)).2.1.logger =
        (processLoop c oid t
          { sys with logger := NotificationLogger.log sys.logger data,
                     observers := (notify_observers sys.observers data).1 } ks).2.1.logger) ∧
    (∀ (c : Customer) (oid : String) (t : Rat) (ks : List String)
        (sys : OrderNotificationSystem),
      ∃ delta, (processLoop c oid t sys ks).2.1.logger = sys.logger ++ delta) := by
  refine ⟨?_, ?_, ?_, ?_⟩
  · intro lg d; rfl
  · intro obs d; exact notify_observers_map obs d
  · intro c oid t k ks sys n data h1 h2
    rw [processLoop_step_ok c oid t k ks sys n data h1 h2]
  · intro c oid t ks sys; exact processLoop_logger_additive c oid t ks sys

/-- Witness for C9's conditional conjunct: one successful email send is
appended to the (empty) history of the default system. -/
theorem history_log_additive_listener_order_witness :
    (processLoop anaFull "O1" 10 defaultSystem ["email"]).2.1.logger =
      (processLoop anaFull "O1" 10
        { defaultSystem with
            logger := NotificationLogger.log defaultSystem.logger
              (SendResult.simple "email" "a@x.com"
                ("Estimado Ana, su pedido #O1 por $" ++ toString (10 : Rat) ++
                  " ha sido confirmado.") nowIso),
            observers := (notify_observers defaultSystem.observers
              (SendResult.simple "email" "a@x.com"
                ("Estimado Ana, su pedido #O1 por $" ++ toString (10 : Rat) ++
                  " ha sido confirmado.") nowIso)).1 } []).2.1.logger :=
  history_log_additive_listener_order.2.2.1 anaFull "O1" 10 "email" [] defaultSystem
    Notifier.email
    (SendResult.simple "email" "a@x.com"
      ("Estimado Ana, su pedido #O1 por $" ++ toString (10 : Rat) ++
        " ha sido confirmado.") nowIso)
    rfl rfl

/-- Claim C10: `process_order` subscripts 'order_id', 'customer' and
'total' before anything else: if any is missing it raises a `KeyError`
naming the first missing key, with nothing printed (so no validation
check has run), no state change and no dispatch; and a validation
failure can only be reported when all three keys are present. -/
theorem missing_key_raises_before_validation (sys : OrderNotificationSystem)
    (od : OrderData) (kinds : List String) :
    (od.order_id = none →
      process_order sys od kinds = (Except.error (PyErr.keyError "order_id"), sys, [])) ∧
    (od.order_id.isSome = true → od.customer = none →
      process_order sys od kinds = (Except.error (PyErr.keyError "customer"), sys, [])) ∧
    (od.order_id.isSome = true → od.customer.isSome = true → od.total = none →
      process_order sys od kinds = (Except.error (PyErr.keyError "total"), sys, [])) ∧
    (∀ msg, msg ∈ (process_order sys od kinds).2.2 →
      (msg = "   ❌ Order ID faltante" ∨ msg = "   ❌ Cliente incompleto" ∨
        msg = "   ❌ Total inválido") →
      od.order_id.isSome = true ∧ od.customer.isSome = true ∧ od.total.isSome = true) := by
  refine ⟨?_, ?_, ?_, ?_⟩
  · intro h; simp [process_order, h]
  · intro h1 h2
    obtain ⟨oid, hoid⟩ := Option.isSome_iff_exists.mp h1
    simp [process_order, hoid, h2]
  · intro h1 h2 h3
    obtain ⟨oid, hoid⟩ := Option.isSome_iff_exists.mp h1
    obtain ⟨cu, hcu⟩ := Option.isSome_iff_exists.mp h2
    simp [process_order, hoid, hcu, h3]
  · intro msg hmem _
    cases hoid : od.order_id with
    | none => rw [(by simp [process_order, hoid] :
        process_order sys od kinds = (Except.error (PyErr.keyError "order_id"), sys, []))] at hmem
              simp at hmem
    | some oid =>
      cases hcu : od.customer with
      | none => rw [(by simp [process_order, hoid, hcu] :
          process_order sys od kinds = (Except.error (PyErr.keyError "customer"), sys, []))] at hmem
                simp at hmem
      | some cu =>
        cases ht : od.total with
        | none => rw [(by simp [process_order, hoid, hcu, ht] :
            process_order sys od kinds = (Except.error (PyErr.keyError "total"), sys, []))] at hmem
                  simp at hmem
        | some t => simp [hoid, hcu, ht]

/-- Witness for C10: each of the three missing-key inputs raises the
matching `KeyError` with empty trace and unchanged state. -/
theorem missing_key_raises_before_validation_witness :
    process_order defaultSystem ⟨none, some anaFull, some 10⟩ ["email"] =
      (Except.error (PyErr.keyError "order_id"), defaultSystem, []) ∧
    process_order defaultSystem ⟨some "O1", none, some 10⟩ ["email"] =
      (Except.error (PyErr.keyError "customer"), defaultSystem, []) ∧
    process_order defaultSystem ⟨some "O1", some anaFull, none⟩ ["email"] =
      (Except.error (PyErr.keyError "total"), defaultSystem, []) :=
  ⟨(missing_key_raises_before_validation defaultSystem ⟨none, some anaFull, some 10⟩ ["email"]).1
      rfl,
   (missing_key_raises_before_validation defaultSystem ⟨some "O1", none, some 10⟩ ["email"]).2.1
      rfl rfl,
   (missing_key_raises_before_validation defaultSystem ⟨some "O1", some anaFull, none⟩
      ["email"]).2.2.1 rfl rfl rfl⟩

/-- Counterexample to C3 as stated: on the spec's own rejection scenario
the validator fails, but the reason it reports is the printed line
`❌ Order ID faltante`; no reason string "identifier missing" exists
anywhere in the output (and `validate` returns a bare boolean, not an
(ok, reason) pair). -/
theorem empty_id_reason_counterexample :
    (validate odEmptyId).1 = false ∧
    (validate odEmptyId).2 = ["   ❌ Order ID faltante"] ∧
    ¬ ("identifier missing" ∈ (validate odEmptyId).2) := by
  refine ⟨rfl, rfl, ?_⟩
  decide

/-- Claim C3 as amended: for every order whose identifier is the empty
string, regardless of all other fields, `validate` returns failure
reporting only the order-id check's diagnostic (`❌ Order ID faltante`);
and `process_order` never reaches the dispatch loop: the system state
(history log and observers) is unchanged and the whole run is
independent of the requested channel list. -/
theorem empty_id_rejected_no_dispatch (c : Option Customer) (t : Option Rat)
    (sys : OrderNotificationSystem) (kinds : List String) :
    validate ⟨some "", c, t⟩ = (false, ["   ❌ Order ID faltante"]) ∧
    (process_order sys ⟨some "", c, t⟩ kinds).2.1 = sys ∧
    process_order sys ⟨some "", c, t⟩ kinds = process_order sys ⟨some "", c, t⟩ [] := by
  have hval : validate ⟨some "", c, t⟩ = (false, ["   ❌ Order ID faltante"]) := by
    simp [validate, build_validator_chain, runChain, checkStep, truthy]
  refine ⟨hval, ?_, ?_⟩
  · cases c with
    | none => simp [process_order]
    | some cu =>
      cases t with
      | none => simp [process_order]
      | some tt =>
        cases hn : cu.name with
        | none => simp [process_order, hn]
        | some nm => simp [process_order, hn, hval]
  · cases c with
    | none => simp [process_order]
    | some cu =>
      cases t with
      | none => simp [process_order]
      | some tt =>
        cases hn : cu.name with
        | none => simp [process_order, hn]
        | some nm => simp [process_order, hn, hval]

lemma validate_parts {od : OrderData} (h : (validate od).1 = true) :
    truthy od.order_id = true ∧
    truthy (od.customer.getD emptyCustomer).name = true ∧
    truthy (od.customer.getD emptyCustomer).email = true ∧
    ¬ od.total.getD 0 ≤ 0 := by
  by_cases h1 : truthy od.order_id
  · by_cases h2 : truthy (od.customer.getD emptyCustomer).name
    · by_cases h3 : truthy (od.customer.getD emptyCustomer).email
      · by_cases h4 : od.total.getD 0 ≤ 0
        · exfalso
          simp [validate, build_validator_chain, runChain, checkStep, h1, h2, h3, h4] at h
        · exact ⟨h1, h2, h3, h4⟩
      · exfalso
        simp [validate, build_validator_chain, runChain, checkStep, h1, h2, h3] at h
    · exfalso
      simp [validate, build_validator_chain, runChain, checkStep, h1, h2] at h
  · exfalso
    simp [validate, build_validator_chain, runChain, checkStep, h1] at h

lemma processLoop_all_ok (c : Customer) (oid : String) (t : Rat) :
    ∀ (ks : List String) (sys : OrderNotificationSystem),
    (∀ k ∈ ks, ∀ n, List.lookup k sys.factory = some n → (send n c oid t).1.isOk = true) →
    (processLoop c oid t sys ks).1 = Except.ok () ∧
    (processLoop c oid t sys ks).2.1.factory = sys.factory ∧
    (processLoop c oid t sys ks).2.1.logger = sys.logger ++ histDelta sys.factory c oid t ks := by
  intro ks
  induction ks with
  | nil => intro sys _; simp [processLoop, histDelta]
  | cons k ks ih =>
    intro sys h
    cases hlook : List.lookup k sys.factory with
    | none =>
      have hrest := ih sys (fun k2 hk2 n hn => h k2 (List.mem_cons_of_mem _ hk2) n hn)
      rw [processLoop_step_notfound c oid t k ks sys hlook]
      refine ⟨hrest.1, hrest.2.1, ?_⟩
      rw [histDelta_cons_none sys.factory c oid t k ks hlook]
      exact hrest.2.2
    | some n =>
      have hsend := h k (List.mem_cons_self _ _) n hlook
      obtain ⟨data, hdata⟩ : ∃ data, (send n c oid t).1 = Except.ok data := by
        cases hs : (send n c oid t).1 with
        | error e => rw [hs] at hsend; simp [Except.isOk, Except.toBool] at hsend
        | ok r => exact ⟨r, rfl⟩
      rw [processLoop_step_ok c oid t k ks sys n data hlook hdata]
      have hrest := ih
        { sys with logger := NotificationLogger.log sys.logger data,
                   observers := (notify_observers sys.observers data).1 }
        (fun k2 hk2 n2 hn2 => h k2 (List.mem_cons_of_mem _ hk2) n2 hn2)
      refine ⟨hrest.1, hrest.2.1, ?_⟩
      rw [hrest.2.2, histDelta_cons_some sys.factory c oid t k ks n data hlook hdata]
      simp [NotificationLogger.log]

lemma histDelta_length (fac : NotificationFactory) (c : Customer) (oid : String) (t : Rat) :
    ∀ (ks : List String),
    (∀ k ∈ ks, ∀ n, List.lookup k fac = some n → (send n c oid t).1.isOk = true) →
    (histDelta fac c oid t ks).length =
      (ks.filter (fun k => (List.lookup k fac).isSome)).length := by
  intro ks
  induction ks with
  | nil => intro _; simp [histDelta]
  | cons k ks ih =>
    intro h
    have ihh := ih (fun k2 hk2 n hn => h k2 (List.mem_cons_of_mem _ hk2) n hn)
    cases hlook : List.lookup k fac with
    | none =>
      rw [histDelta_cons_none fac c oid t k ks hlook]
      simp [List.filter_cons, hlook, ihh]
    | some n =>
      have hsend := h k (List.mem_cons_self _ _) n hlook
      obtain ⟨data, hdata⟩ : ∃ data, (send n c oid t).1 = Except.ok data := by
        cases hs : (send n c oid t).1 with
        | error e => rw [hs] at hsend; simp [Except.isOk, Except.toBool] at hsend
        | ok r => exact ⟨r, rfl⟩
      rw [histDelta_cons_some fac c oid t k ks n data hlook hdata]
      simp [List.filter_cons, hlook, ihh]

/-- Counterexample to C1 as stated: the order passes validation and the
requested kind "sms" has a registered handler, yet `process_order`
produces no result at all for it — the handler's send raises
`KeyError('phone')` (the customer dict has no 'phone' key, which
validation never checks), the exception is not caught, and the history
gains zero entries instead of exactly one. -/
theorem dispatch_missing_result_counterexample :
    (validate odNoPhone).1 = true ∧
    (List.lookup "sms" defaultSystem.factory).isSome = true ∧
    (process_order defaultSystem odNoPhone ["sms"]).1 =
      Except.error (PyErr.keyError "phone") ∧
    (process_order defaultSystem odNoPhone ["sms"]).2.1.logger.length = 0 :=
  ⟨rfl, rfl, rfl, rfl⟩

/-- Claim C1 as amended: for every order that passes validation and
every requested kind list, provided each requested registered handler's
send completes without raising, `process_order` completes normally and
the sequence of results it produces (recorded in the history log, whose
delta is `histDelta`) contains exactly one result per requested kind
with a registered handler, in request order. -/
theorem dispatch_one_result_per_registered_channel
    (sys : OrderNotificationSystem) (od : OrderData) (oid : String) (c : Customer) (t : Rat)
    (kinds : List String)
    (hid : od.order_id = some oid) (hc : od.customer = some c) (ht : od.total = some t)
    (hv : (validate od).1 = true)
    (hsend : ∀ k ∈ kinds, ∀ n, List.lookup k sys.factory = some n →
      (send n c oid t).1.isOk = true) :
    (process_order sys od kinds).1 = Except.ok () ∧
    (process_order sys od kinds).2.1.logger =
      sys.logger ++ histDelta sys.factory c oid t kinds ∧
    (histDelta sys.factory c oid t kinds).length =
      (kinds.filter (fun k => (List.lookup k sys.factory).isSome)).length := by
  obtain ⟨hp1, hp2, hp3, hp4⟩ := validate_parts hv
  rw [hc] at hp2
  simp only [Option.getD_some] at hp2
  obtain ⟨nm, hnm⟩ : ∃ nm, c.name = some nm := by
    cases hcn : c.name with
    | none => rw [hcn] at hp2; simp [truthy] at hp2
    | some nm => exact ⟨nm, rfl⟩
  have hloop := processLoop_all_ok c oid t kinds sys hsend
  have hlen := histDelta_length sys.factory c oid t kinds hsend
  have hpo1 : (process_order sys od kinds).1 = (processLoop c oid t sys kinds).1 := by
    simp [process_order, hid, hc, ht, hnm, hv]
  have hpo2 : (process_order sys od kinds).2.1 = (processLoop c oid t sys kinds).2.1 := by
    simp [process_order, hid, hc, ht, hnm, hv]
  refine ⟨?_, ?_, hlen⟩
  · rw [hpo1]; exact hloop.1
  · rw [hpo2]; exact hloop.2.2

/-- Witness for C1 (amended): a fully-addressed valid order dispatched
to email, sms and the unknown kind "fax". -/
theorem dispatch_one_result_per_registered_channel_witness :
    (validate ⟨some "O1", some anaFull, some 10⟩).1 = true ∧
    (process_order defaultSystem ⟨some "O1", some anaFull, some 10⟩
      ["email", "sms", "fax"]).1 = Except.ok () ∧
    (process_order defaultSystem ⟨some "O1", some anaFull, some 10⟩
      ["email", "sms", "fax"]).2.1.logger =
      defaultSystem.logger ++ histDelta defaultSystem.factory anaFull "O1" 10
        ["email", "sms", "fax"] ∧
    (histDelta defaultSystem.factory anaFull "O1" 10 ["email", "sms", "fax"]).length =
      (["email", "sms", "fax"].filter
        (fun k => (List.lookup k defaultSystem.factory).isSome)).length := by
  have hs : ∀ k ∈ ["email", "sms", "fax"], ∀ n,
      List.lookup k defaultSystem.factory = some n →
      (send n anaFull "O1" 10).1.isOk = true := by
    intro k hk n hn
    simp only [List.mem_cons, List.not_mem_nil, or_false] at hk
    rcases hk with rfl | rfl | rfl
    · rw [show List.lookup "email" defaultSystem.factory = some Notifier.email from rfl] at hn
      injection hn with h2
      cases h2
      rfl
    · rw [show List.lookup "sms" defaultSystem.factory = some Notifier.sms from rfl] at hn
      injection hn with h2
      cases h2
      rfl
    · rw [show List.lookup "fax" defaultSystem.factory = none from rfl] at hn
      cases hn
  have h := dispatch_one_result_per_registered_channel defaultSystem
    ⟨some "O1", some anaFull, some 10⟩ "O1" anaFull 10 ["email", "sms", "fax"]
    rfl rfl rfl rfl hs
  exact ⟨rfl, h.1, h.2.1, h.2.2⟩

/-- Counterexample to C2 as stated: with a validated order whose
customer dict lacks 'phone', requesting ["sms", "email"] aborts on the
sms channel's `KeyError` — although the email channel is registered and
its send would succeed, it is never attempted and the history stays
empty. The failure of one channel prevented the subsequent channel. -/
theorem failure_not_isolated_counterexample :
    (validate odNoPhone).1 = true ∧
    (send Notifier.email anaNoPhone "O1" 10).1.isOk = true ∧
    (process_order defaultSystem odNoPhone ["sms", "email"]).1 =
      Except.error (PyErr.keyError "phone") ∧
    (process_order defaultSystem odNoPhone ["sms", "email"]).2.1.logger = [] :=
  ⟨rfl, rfl, rfl, rfl⟩

/-- Claim C2 as amended: the only failures the dispatch loop isolates to
a single channel are `ValueError`s — in this closed world, the
unregistered-channel failure, after which the remaining channels proceed
from the same state; an exception of any other class raised by a
handler's send (such as `KeyError` for a missing delivery address)
propagates out of the loop and aborts the remaining channels, leaving
the state as mutated so far. -/
theorem channel_failure_isolation_valueerror_only
    (c : Customer) (oid : String) (t : Rat) (k : String) (ks : List String)
    (sys : OrderNotificationSystem) :
    (List.lookup k sys.factory = none →
      processLoop c oid t sys (k :: ks) =
        ((processLoop c oid t sys ks).1, (processLoop c oid t sys ks).2.1,
         ("⚠️ Error: " ++ ("Tipo no soportado: " ++ k) ++ "\n") ::
           (processLoop c oid t sys ks).2.2)) ∧
    (∀ n e, List.lookup k sys.factory = some n → (send n c oid t).1 = Except.error e →
      isValueError e = false →
      processLoop c oid t sys (k :: ks) = (Except.error e, sys, (send n c oid t).2)) := by
  constructor
  · intro h
    exact processLoop_step_notfound c oid t k ks sys h
  · intro n e h1 h2 h3
    exact processLoop_step_abort c oid t k ks sys n e h1 h2 h3

/-- Witness for C2 (amended): the unknown kind "fax" is skipped and
"email" still runs; the sms `KeyError` aborts and "email" is dropped. -/
theorem channel_failure_isolation_valueerror_only_witness :
    (processLoop anaNoPhone "O1" 10 defaultSystem ["fax", "email"] =
      ((processLoop anaNoPhone "O1" 10 defaultSystem ["email"]).1,
       (processLoop anaNoPhone "O1" 10 defaultSystem ["email"]).2.1,
       ("⚠️ Error: " ++ ("Tipo no soportado: " ++ "fax") ++ "\n") ::
         (processLoop anaNoPhone "O1" 10 defaultSystem ["email"]).2.2)) ∧
    (processLoop anaNoPhone "O1" 10 defaultSystem ["sms", "email"] =
      (Except.error (PyErr.keyError "phone"), defaultSystem,
        (send Notifier.sms anaNoPhone "O1" 10).2)) :=
  ⟨(channel_failure_isolation_valueerror_only anaNoPhone "O1" 10 "fax" ["email"]
      defaultSystem).1 rfl,
   (channel_failure_isolation_valueerror_only anaNoPhone "O1" 10 "sms" ["email"]
      defaultSystem).2 Notifier.sms (PyErr.keyError "phone") rfl rfl rfl⟩

/-- Witness for C8: a concrete scripted inner handler failing twice then
succeeding. -/
theorem retry_three_succeeds_two_raises_witness :
    (retryLoop
        (fun n => if n == 0 then (Except.error (PyErr.keyError "a"), [])
          else if n == 1 then (Except.error (PyErr.keyError "b"), [])
          else (Except.ok SendResult.emptyDict, []))
        3 3 0).1 = Except.ok SendResult.emptyDict ∧
    (retryLoop
        (fun n => if n == 0 then (Except.error (PyErr.keyError "a"), [])
          else if n == 1 then (Except.error (PyErr.keyError "b"), [])
          else (Except.ok SendResult.emptyDict, []))
        2 2 0).1 = Except.error (PyErr.keyError "b") := by
  have h := retry_three_succeeds_two_raises
    (fun n => if n == 0 then (Except.error (PyErr.keyError "a"), [])
      else if n == 1 then (Except.error (PyErr.keyError "b"), [])
      else (Except.ok SendResult.emptyDict, []))
    (PyErr.keyError "a") (PyErr.keyError "b") SendResult.emptyDict [] [] []
    (by simp) (by simp) (by simp)
  exact ⟨h.1, h.2.1⟩

end Tienda
